import Mathlib

/-!
Verification of the transform/correlate/aggregate core of the
spotify-youtube ETL pipeline, shallowly embedded from
`src/src/etl/transform.py`.

Modelling conventions:
* Python `float` values are modelled as rationals (`ℚ`); `int` as `Int`.
* Raw records are structures of `Option PyVal` fields: `none` models a
  missing dictionary key, `some v` a present value of dynamic type `v`.
* `int(...)` / `float(...)` applied to a string is abstracted by an
  explicit parser parameter (`pint` / `pfloat`); `Option.none` models the
  `ValueError` the Python built-in raises on an unparsable string.
* A Python operation that can raise inside a per-record transformation is
  modelled in `Except Unit`; the per-record `try/except` of the batch
  loops catches the error and drops the record, as the source does.
-/

/-- Model of a dynamically-typed Python value as it can appear in a raw
record.  `dict`-valued fields never influence any verified claim and are
subsumed under `list` for truthiness / error behaviour. -/
inductive PyVal where
  | none
  | bool (b : Bool)
  | int (i : Int)
  | float (q : ℚ)
  | str (s : String)
  | list (l : List PyVal)

instance : Inhabited PyVal := ⟨PyVal.none⟩

/-- Python truthiness (`bool(v)`) for the modelled value shapes. -/
def PyVal.truthy : PyVal → Bool
  | .none => false
  | .bool b => b
  | .int i => i != 0
  | .float q => q != 0
  | .str s => s != ""
  | .list l => !l.isEmpty

/-- `_parse_date` (transform.py:469-483): standardises a date string.
Length 4 (bare year) gains `-01-01`, length 7 (year-month) gains `-01`,
anything else non-empty is cut to its first 10 characters; the empty
string maps to itself.  The function is total: the `try/except` in the
source can never fire for a string argument. -/
def parseDate (date_str : String) : String :=
  if date_str = "" then ""
  else if date_str.length = 4 then date_str ++ "-01-01"
  else if date_str.length = 7 then date_str ++ "-01"
  else date_str.take 10

/-- Output record of `_calculate_engagement_metrics`. -/
structure EngagementMetrics where
  like_rate : ℚ
  comment_rate : ℚ
  engagement_rate : ℚ
  engagement_score : ℚ
deriving DecidableEq

/-- `_calculate_engagement_metrics` (transform.py:606-626), as a function
of the three counts the source reads from the transformed video record.
The division branch is guarded by `view_count > 0`; otherwise all rates
are set to `0.0`, and the score is `min(100, engagement_rate * 1000)`. -/
def calculateEngagementMetrics (view_count like_count comment_count : Int) :
    EngagementMetrics :=
  if 0 < view_count then
    let er : ℚ := ((like_count : ℚ) + (comment_count : ℚ)) / (view_count : ℚ)
    { like_rate := (like_count : ℚ) / (view_count : ℚ)
      comment_rate := (comment_count : ℚ) / (view_count : ℚ)
      engagement_rate := er
      engagement_score := min 100 (er * 1000) }
  else
    { like_rate := 0
      comment_rate := 0
      engagement_rate := 0
      engagement_score := min 100 ((0 : ℚ) * 1000) }

/-- `_calculate_duration_similarity` (transform.py:709-717): `0.0` when
either duration is zero, otherwise `max(0.0, 1.0 - diff / max_duration)`. -/
def calculateDurationSimilarity (duration1 duration2 : Int) : ℚ :=
  if duration1 = 0 ∨ duration2 = 0 then 0
  else
    max 0 (1 - (((|duration1 - duration2| : Int) : ℚ) / ((max duration1 duration2 : Int) : ℚ)))

/-- C3 counterexample: `"12345"` is non-empty, has length 5 (neither 4 nor
7 nor ≥ 10), and date coercion returns the string itself — not the empty
string the claim requires for such inputs. -/
theorem parse_date_counterexample :
    ("12345" : String) ≠ "" ∧ ("12345" : String).length = 5 ∧
      parseDate "12345" = "12345" ∧ parseDate "12345" ≠ "" := by
  refine ⟨by decide, by decide, ?_, ?_⟩ <;> decide

/-- C3 (amended): date coercion maps the empty string to itself, a
length-4 string to `<year>-01-01`, a length-7 string to `<year-month>-01`,
and any other non-empty string (length 10 or more, but also lengths
1-3, 5, 6, 8, 9) to its first 10 characters; being a total function it
never raises. -/
theorem parse_date_spec (s : String) :
    (s = "" → parseDate s = "") ∧
    (s.length = 4 → parseDate s = s ++ "-01-01") ∧
    (s.length = 7 → parseDate s = s ++ "-01") ∧
    (s ≠ "" → s.length ≠ 4 → s.length ≠ 7 → parseDate s = s.take 10) := by
  refine ⟨?_, ?_, ?_, ?_⟩
  · intro h; simp [parseDate, h]
  · intro h4
    have hne : s ≠ "" := by
      intro h; rw [h] at h4; simp at h4
    simp [parseDate, hne, h4]
  · intro h7
    have hne : s ≠ "" := by
      intro h; rw [h] at h7; simp at h7
    have h4 : s.length ≠ 4 := by rw [h7]; decide
    simp [parseDate, hne, h4, h7]
  · intro hne h4 h7
    simp [parseDate, hne, h4, h7]

/-- C3 witness: the amended characterisation evaluated on one concrete
input per branch. -/
theorem parse_date_spec_witness :
    parseDate "" = "" ∧ parseDate "2020" = "2020-01-01" ∧
      parseDate "2020-05" = "2020-05-01" ∧ parseDate "2020-05-17T08:00" = "2020-05-17" := by
  refine ⟨(parse_date_spec "").1 rfl, (parse_date_spec "2020").2.1 (by decide),
    (parse_date_spec "2020-05").2.2.1 (by decide),
    (parse_date_spec "2020-05-17T08:00").2.2.2 (by decide) (by decide) (by decide)⟩

/-- C7: a video record with `view_count = 0` takes the guarded else-branch
of `_calculate_engagement_metrics`, so `like_rate`, `comment_rate`,
`engagement_rate` and `engagement_score` are all exactly `0.0`; the
division branch is only reached when `view_count > 0`, so no division by
zero can occur. -/
theorem engagement_zero_views (view_count like_count comment_count : Int)
    (h : view_count = 0) :
    (calculateEngagementMetrics view_count like_count comment_count).like_rate = 0 ∧
    (calculateEngagementMetrics view_count like_count comment_count).comment_rate = 0 ∧
    (calculateEngagementMetrics view_count like_count comment_count).engagement_rate = 0 ∧
    (calculateEngagementMetrics view_count like_count comment_count).engagement_score = 0 := by
  subst h
  simp [calculateEngagementMetrics]

/-- C7 witness: concrete evaluation at `view_count = 0`. -/
theorem engagement_zero_views_witness :
    (calculateEngagementMetrics 0 50000 1234).like_rate = 0 ∧
    (calculateEngagementMetrics 0 50000 1234).comment_rate = 0 ∧
    (calculateEngagementMetrics 0 50000 1234).engagement_rate = 0 ∧
    (calculateEngagementMetrics 0 50000 1234).engagement_score = 0 :=
  engagement_zero_views 0 50000 1234 rfl

/-- C10: for non-negative integer durations the duration similarity is
`0.0` when either duration is zero, otherwise exactly
`1 - |d1 - d2| / max d1 d2` (the `max 0` clamp of the source is vacuous
there because the difference never exceeds the larger duration), and the
result always lies in `[0, 1]`. -/
theorem duration_similarity_spec (d1 d2 : Int) (h1 : 0 ≤ d1) (h2 : 0 ≤ d2) :
    0 ≤ calculateDurationSimilarity d1 d2 ∧
    calculateDurationSimilarity d1 d2 ≤ 1 ∧
    ((d1 = 0 ∨ d2 = 0) → calculateDurationSimilarity d1 d2 = 0) ∧
    (d1 ≠ 0 → d2 ≠ 0 →
      calculateDurationSimilarity d1 d2
        = 1 - (((|d1 - d2| : Int) : ℚ) / ((max d1 d2 : Int) : ℚ))) := by
  by_cases hz : d1 = 0 ∨ d2 = 0
  · refine ⟨?_, ?_, fun _ => ?_, fun hd1 hd2 => ?_⟩
    · simp [calculateDurationSimilarity, hz]
    · simp [calculateDurationSimilarity, hz]
    · simp [calculateDurationSimilarity, hz]
    · rcases hz with hz | hz
      · exact absurd hz hd1
      · exact absurd hz hd2
  · push_neg at hz
    obtain ⟨hd1, hd2⟩ := hz
    have hp1 : 0 < d1 := lt_of_le_of_ne h1 (Ne.symm hd1)
    have hp2 : 0 < d2 := lt_of_le_of_ne h2 (Ne.symm hd2)
    have hmaxpos : (0 : Int) < max d1 d2 := lt_max_of_lt_left hp1
    have hmaxposQ : (0 : ℚ) < ((max d1 d2 : Int) : ℚ) := by exact_mod_cast hmaxpos
    have habs : (|d1 - d2| : Int) ≤ max d1 d2 := by
      rw [abs_le]; omega
    have habsQ : (((|d1 - d2| : Int) : ℚ)) ≤ ((max d1 d2 : Int) : ℚ) := by
      exact_mod_cast habs
    have habsnnQ : (0 : ℚ) ≤ ((|d1 - d2| : Int) : ℚ) := by
      exact_mod_cast abs_nonneg (d1 - d2)
    have hdivle : (((|d1 - d2| : Int) : ℚ) / ((max d1 d2 : Int) : ℚ)) ≤ 1 :=
      (div_le_one hmaxposQ).mpr habsQ
    have hdivnn : 0 ≤ (((|d1 - d2| : Int) : ℚ) / ((max d1 d2 : Int) : ℚ)) :=
      div_nonneg habsnnQ (le_of_lt hmaxposQ)
    have hval : calculateDurationSimilarity d1 d2
        = 1 - (((|d1 - d2| : Int) : ℚ) / ((max d1 d2 : Int) : ℚ)) := by
      have hnn : (0 : ℚ) ≤ 1 - (((|d1 - d2| : Int) : ℚ) / ((max d1 d2 : Int) : ℚ)) := by
        linarith
      simp only [calculateDurationSimilarity, hd1, hd2, or_self, if_false]
      · exact max_eq_right hnn
    refine ⟨?_, ?_, fun h => ?_, fun _ _ => hval⟩
    · rw [hval]; linarith
    · rw [hval]; linarith
    · rcases h with h | h
      · exact absurd h hd1
      · exact absurd h hd2

/-- C10 witness: durations 100 and 50 give similarity `1 - 50/100 = 1/2`,
inside `[0, 1]`. -/
theorem duration_similarity_spec_witness :
    0 ≤ calculateDurationSimilarity 100 50 ∧
    calculateDurationSimilarity 100 50 ≤ 1 ∧
    calculateDurationSimilarity 100 50
      = 1 - (((|(100 : Int) - 50| : Int) : ℚ) / ((max (100 : Int) 50 : Int) : ℚ)) := by
  have h := duration_similarity_spec 100 50 (by decide) (by decide)
  exact ⟨h.1, h.2.1, h.2.2.2 (by decide) (by decide)⟩

/-! ## Kernel-friendly string primitives

`String.toLower` / `String.split` are position-based loops that the
kernel cannot unfold, so the Python string operations are modelled over
the underlying character lists instead. -/

/-- Python `str.lower()`: character-wise lower-casing. -/
def strLower (s : String) : String := String.mk (s.data.map Char.toLower)

/-- Auxiliary splitter: cut a character list at every whitespace
character (each whitespace char ends a chunk, like `re.split`). -/
def splitWsAux (cur : List Char) : List Char → List (List Char)
  | [] => [cur.reverse]
  | c :: cs =>
    if c.isWhitespace then cur.reverse :: splitWsAux [] cs
    else splitWsAux (c :: cur) cs

/-- Whitespace normalisation of `_clean_text`: dropping the empty chunks
and re-joining with single spaces is exactly
`re.sub(r"\s+", " ", text.strip())`. -/
def collapseWs (s : String) : String :=
  String.mk (List.intercalate [' '] ((splitWsAux [] s.data).filter (· ≠ [])))

/-- Is the first list a leading block of the second? -/
def isPreOf : List Char → List Char → Bool
  | [], _ => true
  | _ :: _, [] => false
  | a :: as, b :: bs => a == b && isPreOf as bs

/-- Python substring test `needle in hay` on character lists: some tail
of `hay` starts with `needle` (true for the empty needle). -/
def hasSub (needle : List Char) : List Char → Bool
  | [] => needle.isEmpty
  | c :: cs => isPreOf needle (c :: cs) || hasSub needle cs

/-- Python substring test on strings. -/
def pyInStr (needle hay : String) : Bool := hasSub needle.data hay.data

/-- `_clean_text` (transform.py:446-453): a falsy argument short-circuits
to `""`; a string has its surrounding whitespace stripped and internal
whitespace runs collapsed to single spaces; `Except.error` models the
`TypeError` that `re.sub` raises on a truthy non-string argument. -/
def cleanText : PyVal → Except Unit String
  | .str s => .ok (collapseWs s)
  | v => if v.truthy then .error () else .ok ""

/-! ## Matcher (`_find_related_videos`, `_calculate_similarity`) -/

/-- The track fields read by the matcher (a transformed Spotify track). -/
structure MTrack where
  name : String
  artist_name : String
deriving DecidableEq

/-- The video fields read by the matcher (a transformed YouTube video:
`search_artist` / `search_track` default to `""` when the raw record
lacked them). -/
structure MVideo where
  title : String
  search_artist : String
  search_track : String
deriving DecidableEq

/-- `_calculate_similarity` (transform.py:673-694).  The
`difflib.SequenceMatcher(None, a, b).ratio()` library call is abstracted
by the parameter `ratio`. -/
def calculateSimilarity (ratio : String → String → ℚ) (track : MTrack)
    (video : MVideo) : ℚ :=
  let track_name := strLower track.name
  let artist_name := strLower track.artist_name
  let video_title := strLower video.title
  let text_score : ℚ :=
    let name_similarity := ratio track_name video_title
    let artist_in_title : ℚ := if pyInStr artist_name video_title then 1 else 0
    name_similarity * (7 / 10) + artist_in_title * (3 / 10)
  if video.search_artist ≠ "" ∧ video.search_track ≠ "" then
    if strLower video.search_artist = artist_name ∧
        strLower video.search_track = track_name then
      1
    else text_score
  else text_score

/-- Insertion step of a stable descending sort by `key`: the new element
goes in front of the first already-placed element whose key is ≤ its own,
i.e. after every strictly larger key and before every equal one. -/
def insertDesc {α : Type} (key : α → ℚ) (x : α) : List α → List α
  | [] => [x]
  | y :: ys => if key y ≤ key x then x :: y :: ys else y :: insertDesc key x ys

/-- Stable descending insertion sort by `key`.  Python's
`list.sort(key=..., reverse=True)` is a stable descending sort, and any
two stable sorts under the same total preorder agree, so this models
`related.sort(key=lambda x: x[1], reverse=True)` exactly. -/
def sortDesc {α : Type} (key : α → ℚ) : List α → List α
  | [] => []
  | x :: xs => insertDesc key x (sortDesc key xs)

/-- `_find_related_videos` (transform.py:656-671): score every candidate,
keep those with score strictly above the 0.3 threshold, stable-sort
descending by score, return the first 5. -/
def findRelatedVideos (ratio : String → String → ℚ) (track : MTrack)
    (videos : List MVideo) : List (MVideo × ℚ) :=
  let related := (videos.map (fun v => (v, calculateSimilarity ratio track v))).filter
    (fun p => (3 : ℚ) / 10 < p.2)
  (sortDesc (fun p => p.2) related).take 5

theorem mem_insertDesc {α : Type} (key : α → ℚ) (x : α) (l : List α) (a : α) :
    a ∈ insertDesc key x l ↔ a ∈ x :: l := by
  induction l with
  | nil => simp [insertDesc]
  | cons y ys ih =>
    by_cases h : key y ≤ key x
    · simp [insertDesc, h]
    · simp only [insertDesc, if_neg h, List.mem_cons, ih]
      tauto

theorem mem_sortDesc {α : Type} (key : α → ℚ) (l : List α) (a : α) :
    a ∈ sortDesc key l ↔ a ∈ l := by
  induction l with
  | nil => simp [sortDesc]
  | cons x xs ih =>
    simp only [sortDesc, mem_insertDesc, List.mem_cons, ih]

theorem sorted_insertDesc {α : Type} (key : α → ℚ) (x : α) (l : List α)
    (h : l.Pairwise (fun a b => key b ≤ key a)) :
    (insertDesc key x l).Pairwise (fun a b => key b ≤ key a) := by
  induction l with
  | nil => simp [insertDesc]
  | cons y ys ih =>
    rw [List.pairwise_cons] at h
    obtain ⟨hy, hys⟩ := h
    by_cases hxy : key y ≤ key x
    · rw [insertDesc, if_pos hxy, List.pairwise_cons]
      constructor
      · intro b hb
        rcases List.mem_cons.mp hb with hbx | hb
        · rw [hbx]; exact hxy
        · exact le_trans (hy b hb) hxy
      · rw [List.pairwise_cons]
        exact ⟨hy, hys⟩
    · rw [insertDesc, if_neg hxy, List.pairwise_cons]
      constructor
      · intro b hb
        rcases List.mem_cons.mp ((mem_insertDesc key x ys b).mp hb) with hbx | hbys
        · rw [hbx]
          exact le_of_lt (lt_of_not_le hxy)
        · exact hy b hbys
      · exact ih hys

theorem sorted_sortDesc {α : Type} (key : α → ℚ) (l : List α) :
    (sortDesc key l).Pairwise (fun a b => key b ≤ key a) := by
  induction l with
  | nil => simp [sortDesc]
  | cons x xs ih => exact sorted_insertDesc key x (sortDesc key xs) ih

theorem filter_insertDesc {α : Type} (key : α → ℚ) (s : ℚ) (x : α) (l : List α)
    (hl : l.Pairwise (fun a b => key b ≤ key a)) :
    (insertDesc key x l).filter (fun a => key a == s)
      = if key x = s then x :: l.filter (fun a => key a == s)
        else l.filter (fun a => key a == s) := by
  induction l with
  | nil =>
    by_cases hx : key x = s
    · rw [if_pos hx]
      simp [insertDesc, List.filter_cons, hx]
    · rw [if_neg hx]
      simp [insertDesc, List.filter_cons, hx]
  | cons y ys ih =>
    rw [List.pairwise_cons] at hl
    obtain ⟨hy, hys⟩ := hl
    by_cases hxy : key y ≤ key x
    · by_cases hx : key x = s
      · rw [if_pos hx]
        simp only [insertDesc, if_pos hxy]
        simp [List.filter_cons, hx]
      · rw [if_neg hx]
        simp only [insertDesc, if_pos hxy]
        simp [List.filter_cons, hx]
    · have hyx : key x < key y := lt_of_not_le hxy
      by_cases hx : key x = s
      · have hyne : ¬ key y = s := by
          intro h
          rw [h, ← hx] at hyx
          exact lt_irrefl _ hyx
        rw [if_pos hx]
        simp only [insertDesc, if_neg hxy]
        simp [List.filter_cons, hyne, ih hys, hx]
      · rw [if_neg hx]
        simp only [insertDesc, if_neg hxy]
        simp [List.filter_cons, ih hys, hx]

theorem filter_sortDesc {α : Type} (key : α → ℚ) (s : ℚ) (l : List α) :
    (sortDesc key l).filter (fun a => key a == s)
      = l.filter (fun a => key a == s) := by
  induction l with
  | nil => rfl
  | cons x xs ih =>
    rw [sortDesc, filter_insertDesc key s x _ (sorted_sortDesc key xs), List.filter_cons]
    by_cases hx : key x = s
    · rw [if_pos hx, ih, if_pos (by simpa using hx)]
    · rw [if_neg hx, ih, if_neg (by simpa using hx)]

/-- C1: the match list returned for any track over any candidate list
(and any similarity ratio oracle) contains only candidates whose score is
strictly above 0.3, has at most 5 entries, is sorted by score in
non-increasing order, and for every fixed score the candidates carrying
that score form (in order) a sublist of the input video list — equal
scores keep their input relative order (stable sort). -/
theorem matcher_output_spec (ratio : String → String → ℚ) (track : MTrack)
    (videos : List MVideo) :
    (∀ p ∈ findRelatedVideos ratio track videos, (3 : ℚ) / 10 < p.2) ∧
    (findRelatedVideos ratio track videos).length ≤ 5 ∧
    (findRelatedVideos ratio track videos).Pairwise (fun p q => q.2 ≤ p.2) ∧
    (∀ s : ℚ, (((findRelatedVideos ratio track videos).filter
        (fun p => p.2 == s)).map Prod.fst).Sublist videos) := by
  refine ⟨?_, ?_, ?_, ?_⟩
  · intro p hp
    have h1 : p ∈ sortDesc (fun p : MVideo × ℚ => p.2)
        ((videos.map (fun v => (v, calculateSimilarity ratio track v))).filter
          (fun p => (3 : ℚ) / 10 < p.2)) :=
      (List.take_sublist 5 _).subset hp
    have h2 := (mem_sortDesc _ _ p).mp h1
    have h3 := List.mem_filter.mp h2
    simpa using h3.2
  · calc (findRelatedVideos ratio track videos).length
        = min 5 (sortDesc (fun p : MVideo × ℚ => p.2)
            ((videos.map (fun v => (v, calculateSimilarity ratio track v))).filter
              (fun p => (3 : ℚ) / 10 < p.2))).length := List.length_take ..
      _ ≤ 5 := min_le_left ..
  · exact (sorted_sortDesc (fun p : MVideo × ℚ => p.2) _).sublist (List.take_sublist 5 _)
  · intro s
    have h1 : (findRelatedVideos ratio track videos).filter (fun p => p.2 == s)
        |>.Sublist ((sortDesc (fun p : MVideo × ℚ => p.2)
          ((videos.map (fun v => (v, calculateSimilarity ratio track v))).filter
            (fun p => (3 : ℚ) / 10 < p.2))).filter (fun p => p.2 == s)) :=
      (List.take_sublist 5 _).filter _
    rw [filter_sortDesc] at h1
    have h2 : ((videos.map (fun v => (v, calculateSimilarity ratio track v))).filter
          (fun p => (3 : ℚ) / 10 < p.2)).filter (fun p => p.2 == s)
        |>.Sublist (videos.map (fun v => (v, calculateSimilarity ratio track v))) :=
      ((List.filter_sublist _).filter _).trans (List.filter_sublist _)
    have h3 := (h1.trans h2).map Prod.fst
    rw [List.map_map] at h3
    have hcomp : (Prod.fst ∘ fun v : MVideo => (v, calculateSimilarity ratio track v)) = id :=
      funext (fun v => rfl)
    rw [hcomp, List.map_id] at h3
    exact h3

/-- C1 witness: with the constant-zero ratio oracle and one exactly
matching video, the single output pair has score 1 > 0.3, the output has
at most 5 entries, and its score-1 slice is a sublist of the input. -/
theorem matcher_output_spec_witness :
    (3 : ℚ) / 10 <
      (MVideo.mk "x" "Adele" "Hello", (1 : ℚ)).2 ∧
    (findRelatedVideos (fun _ _ => 0) (MTrack.mk "Hello" "Adele")
      [MVideo.mk "x" "Adele" "Hello"]).length ≤ 5 ∧
    ((((findRelatedVideos (fun _ _ => 0) (MTrack.mk "Hello" "Adele")
      [MVideo.mk "x" "Adele" "Hello"]).filter (fun p => p.2 == (1 : ℚ))).map
        Prod.fst).Sublist [MVideo.mk "x" "Adele" "Hello"]) := by
  have h := matcher_output_spec (fun _ _ => 0) (MTrack.mk "Hello" "Adele")
    [MVideo.mk "x" "Adele" "Hello"]
  refine ⟨h.1 (MVideo.mk "x" "Adele" "Hello", (1 : ℚ)) ?_, h.2.1, h.2.2.2 1⟩
  have hlt : (3 : ℚ) / 10 < 1 := by norm_num
  have hsim : calculateSimilarity (fun _ _ => 0) (MTrack.mk "Hello" "Adele")
      (MVideo.mk "x" "Adele" "Hello") = 1 := by
    simp only [calculateSimilarity]
    rw [if_pos ⟨by decide, by decide⟩, if_pos ⟨by decide, by decide⟩]
  have hout : findRelatedVideos (fun _ _ => 0) (MTrack.mk "Hello" "Adele")
      [MVideo.mk "x" "Adele" "Hello"] = [(MVideo.mk "x" "Adele" "Hello", (1 : ℚ))] := by
    simp only [findRelatedVideos, List.map_cons, List.map_nil, hsim]
    rw [List.filter_cons, if_pos (decide_eq_true hlt), List.filter_nil]
    simp [sortDesc, insertDesc]
  rw [hout]
  exact List.mem_singleton.mpr rfl

/-- C2: when a video's `search_artist` and `search_track` are both
non-empty and case-insensitively equal the track's `artist_name` and
`name`, the similarity short-circuits to exactly `1.0`, for every ratio
oracle and regardless of the video's title text. -/
theorem exact_match_short_circuit (ratio : String → String → ℚ)
    (track : MTrack) (video : MVideo)
    (h1 : video.search_artist ≠ "") (h2 : video.search_track ≠ "")
    (h3 : strLower video.search_artist = strLower track.artist_name)
    (h4 : strLower video.search_track = strLower track.name) :
    calculateSimilarity ratio track video = 1 := by
  simp only [calculateSimilarity]
  rw [if_pos ⟨h1, h2⟩, if_pos ⟨h3, h4⟩]

/-- C2 witness: `search_artist = "Adele"`, `search_track = "Hello"`
against a track with `artist_name = "adele"`, `name = "hello"` scores 1
whatever the title says. -/
theorem exact_match_short_circuit_witness :
    calculateSimilarity (fun _ _ => 0) (MTrack.mk "hello" "adele")
      (MVideo.mk "totally unrelated title" "Adele" "Hello") = 1 :=
  exact_match_short_circuit (fun _ _ => 0) (MTrack.mk "hello" "adele")
    (MVideo.mk "totally unrelated title" "Adele" "Hello")
    (by decide) (by decide) (by decide) (by decide)

/-! ## Safe numeric coercions (`_safe_int`, `_safe_float`) -/

/-- Truncation toward zero: the semantics of Python `int()` on a float. -/
def ratTruncToInt (q : ℚ) : Int := if 0 ≤ q then ⌊q⌋ else ⌈q⌉

/-- `_safe_int` (transform.py:455-460): `int(value) if value is not None
else 0`, with `ValueError`/`TypeError` caught and mapped to 0.  `int()`
on a string is abstracted by the parser parameter `pint` (`Option.none`
models the `ValueError` raised on an unparsable string); `int()` of a
list raises `TypeError`, so it yields 0. -/
def safeInt (pint : String → Option Int) : PyVal → Int
  | .none => 0
  | .bool b => if b then 1 else 0
  | .int i => i
  | .float q => ratTruncToInt q
  | .str s => (pint s).getD 0
  | .list _ => 0

/-- `_safe_float` (transform.py:462-467): same shape as `_safe_int`, with
`float()` on a string abstracted by `pfloat`. -/
def safeFloat (pfloat : String → Option ℚ) : PyVal → ℚ
  | .none => 0
  | .bool b => if b then 1 else 0
  | .int i => (i : ℚ)
  | .float q => q
  | .str s => (pfloat s).getD 0
  | .list _ => 0

/-- A string parser that accepts nothing, usable wherever the concrete
parser is irrelevant. -/
def noParseInt : String → Option Int := fun _ => Option.none

/-- A float-string parser that accepts nothing. -/
def noParseFloat : String → Option ℚ := fun _ => Option.none

/-! ## Feature Enricher (`transform_spotify_features`) -/

/-- The raw audio-features record: every field optional, dynamically
typed. -/
structure RawFeature where
  id : Option PyVal := Option.none
  danceability : Option PyVal := Option.none
  energy : Option PyVal := Option.none
  speechiness : Option PyVal := Option.none
  acousticness : Option PyVal := Option.none
  instrumentalness : Option PyVal := Option.none
  liveness : Option PyVal := Option.none
  valence : Option PyVal := Option.none
  loudness : Option PyVal := Option.none
  tempo : Option PyVal := Option.none
  key : Option PyVal := Option.none
  mode : Option PyVal := Option.none
  time_signature : Option PyVal := Option.none
  duration_ms : Option PyVal := Option.none

/-- The three category labels of `_categorize_audio_features`. -/
structure AudioCategories where
  energy_level : String
  mood : String
  danceability_level : String
deriving DecidableEq

/-- `_categorize_audio_features` (transform.py:563-604), as a function of
the three coerced fields the source reads from the transformed record. -/
def categorizeAudioFeatures (energy valence danceability : ℚ) : AudioCategories :=
  { energy_level :=
      if (8 : ℚ) / 10 ≤ energy then "very_high"
      else if (6 : ℚ) / 10 ≤ energy then "high"
      else if (4 : ℚ) / 10 ≤ energy then "medium"
      else if (2 : ℚ) / 10 ≤ energy then "low"
      else "very_low"
    mood :=
      if (8 : ℚ) / 10 ≤ valence then "very_positive"
      else if (6 : ℚ) / 10 ≤ valence then "positive"
      else if (4 : ℚ) / 10 ≤ valence then "neutral"
      else if (2 : ℚ) / 10 ≤ valence then "negative"
      else "very_negative"
    danceability_level :=
      if (8 : ℚ) / 10 ≤ danceability then "very_danceable"
      else if (6 : ℚ) / 10 ≤ danceability then "danceable"
      else if (4 : ℚ) / 10 ≤ danceability then "moderate"
      else "not_danceable" }

/-- One transformed audio-features record.  Extraction metadata and the
wall-clock `transformed_at` timestamp are omitted: no claim observes
them and their computation cannot raise. -/
structure FeatureOut where
  track_id : PyVal
  danceability : ℚ
  energy : ℚ
  speechiness : ℚ
  acousticness : ℚ
  instrumentalness : ℚ
  liveness : ℚ
  valence : ℚ
  loudness : ℚ
  tempo : ℚ
  key : Int
  mode : Int
  time_signature : Int
  duration_ms : Int
  energy_level : String
  mood : String
  danceability_level : String
  dance_score : ℚ
  mood_score : ℚ

/-- One iteration of the `transform_spotify_features` loop
(transform.py:129-177).  The loop body contains no operation that can
raise (all field accesses go through `_safe_int` / `_safe_float`), so the
per-record transformation is total. -/
def transformSpotifyFeature (pint : String → Option Int)
    (pfloat : String → Option ℚ) (f : RawFeature) : FeatureOut :=
  let danceability := safeFloat pfloat (f.danceability.getD (.float 0))
  let energy := safeFloat pfloat (f.energy.getD (.float 0))
  let speechiness := safeFloat pfloat (f.speechiness.getD (.float 0))
  let acousticness := safeFloat pfloat (f.acousticness.getD (.float 0))
  let instrumentalness := safeFloat pfloat (f.instrumentalness.getD (.float 0))
  let liveness := safeFloat pfloat (f.liveness.getD (.float 0))
  let valence := safeFloat pfloat (f.valence.getD (.float 0))
  let cats := categorizeAudioFeatures energy valence danceability
  { track_id := f.id.getD (.str "")
    danceability := danceability
    energy := energy
    speechiness := speechiness
    acousticness := acousticness
    instrumentalness := instrumentalness
    liveness := liveness
    valence := valence
    loudness := safeFloat pfloat (f.loudness.getD (.float 0))
    tempo := safeFloat pfloat (f.tempo.getD (.float 0))
    key := safeInt pint (f.key.getD (.int (-1)))
    mode := safeInt pint (f.mode.getD (.int (-1)))
    time_signature := safeInt pint (f.time_signature.getD (.int 4))
    duration_ms := safeInt pint (f.duration_ms.getD (.int 0))
    energy_level := cats.energy_level
    mood := cats.mood
    danceability_level := cats.danceability_level
    dance_score := danceability * (4 / 10) + energy * (3 / 10) + valence * (3 / 10)
    mood_score := valence * (5 / 10) + energy * (3 / 10) + (1 - acousticness) * (2 / 10) }

/-- `transform_spotify_features` (transform.py:115-184): the loop body is
total, so the per-record `try/except` never fires and the batch is a plain
map over the input. -/
def transformSpotifyFeatures (pint : String → Option Int)
    (pfloat : String → Option ℚ) (fs : List RawFeature) : List FeatureOut :=
  fs.map (transformSpotifyFeature pint pfloat)

/-- A rational lies in the closed unit interval. -/
def inUnit (q : ℚ) : Prop := 0 ≤ q ∧ q ≤ 1

/-- The raw value of a perceptual field coerces into `[0,1]`: missing,
`None`, boolean and non-numeric values always do, a numeric value does
iff it already lies in `[0,1]`. -/
def dimWithinUnit (pfloat : String → Option ℚ) : Option PyVal → Prop
  | Option.none => True
  | some .none => True
  | some (.bool _) => True
  | some (.int i) => 0 ≤ i ∧ i ≤ 1
  | some (.float q) => 0 ≤ q ∧ q ≤ 1
  | some (.str s) => ∀ q, pfloat s = some q → 0 ≤ q ∧ q ≤ 1
  | some (.list _) => True

/-- The raw value is missing or non-numeric, so `_safe_float` coerces it
to 0. -/
def dimMissingOrNonNumeric (pfloat : String → Option ℚ) : Option PyVal → Prop
  | Option.none => True
  | some .none => True
  | some (.str s) => pfloat s = Option.none
  | some (.list _) => True
  | _ => False

theorem safeFloat_getD_unit (pfloat : String → Option ℚ) (o : Option PyVal)
    (h : dimWithinUnit pfloat o) : inUnit (safeFloat pfloat (o.getD (.float 0))) := by
  match o with
  | Option.none => exact ⟨le_refl 0, by norm_num [safeFloat]⟩
  | some .none => exact ⟨le_refl 0, by norm_num [safeFloat]⟩
  | some (.bool b) =>
    cases b <;> simp [safeFloat, inUnit]
  | some (.int i) =>
    obtain ⟨h0, h1⟩ := h
    constructor
    · show (0 : ℚ) ≤ (i : ℚ)
      exact_mod_cast h0
    · show ((i : ℚ)) ≤ 1
      exact_mod_cast h1
  | some (.float q) => exact h
  | some (.str s) =>
    match hq : pfloat s with
    | Option.none => simp [safeFloat, inUnit, hq]
    | some q =>
      have := h q hq
      simpa [safeFloat, inUnit, hq] using this
  | some (.list l) => exact ⟨le_refl 0, by norm_num [safeFloat]⟩

theorem safeFloat_getD_zero (pfloat : String → Option ℚ) (o : Option PyVal)
    (h : dimMissingOrNonNumeric pfloat o) :
    safeFloat pfloat (o.getD (.float 0)) = 0 := by
  match o with
  | Option.none => rfl
  | some .none => rfl
  | some (.bool b) => exact absurd h (by simp [dimMissingOrNonNumeric])
  | some (.int i) => exact absurd h (by simp [dimMissingOrNonNumeric])
  | some (.float q) => exact absurd h (by simp [dimMissingOrNonNumeric])
  | some (.str s) => simp [safeFloat, show pfloat s = Option.none from h]
  | some (.list l) => rfl

/-- C4 counterexample: a raw record with `danceability = 2.0` is
transformed to `danceability = 2.0`, outside `[0.0, 1.0]` — the code
coerces but never clamps the perceptual dimensions. -/
theorem features_unit_counterexample :
    (transformSpotifyFeature noParseInt noParseFloat
        { danceability := some (.float 2) }).danceability = 2 ∧
    ¬ inUnit (transformSpotifyFeature noParseInt noParseFloat
        { danceability := some (.float 2) }).danceability := by
  have hd : (transformSpotifyFeature noParseInt noParseFloat
      { danceability := some (.float 2) }).danceability = 2 := rfl
  refine ⟨hd, ?_⟩
  intro h
  rw [inUnit, hd] at h
  exact absurd h.2 (by norm_num)

/-- C4 (amended): each of the seven perceptual dimensions equals the
`_safe_float` coercion of its raw value, so it lies in `[0.0, 1.0]`
whenever the raw value is missing, `None`, boolean, non-numeric, or a
numeric already in `[0, 1]` — the code does not clamp, so out-of-range
numeric inputs pass through unchanged; missing or non-numeric input
always coerces to 0. -/
theorem features_dims_spec (pint : String → Option Int)
    (pfloat : String → Option ℚ) (f : RawFeature)
    (h1 : dimWithinUnit pfloat f.danceability)
    (h2 : dimWithinUnit pfloat f.energy)
    (h3 : dimWithinUnit pfloat f.speechiness)
    (h4 : dimWithinUnit pfloat f.acousticness)
    (h5 : dimWithinUnit pfloat f.instrumentalness)
    (h6 : dimWithinUnit pfloat f.liveness)
    (h7 : dimWithinUnit pfloat f.valence) :
    (inUnit (transformSpotifyFeature pint pfloat f).danceability ∧
     inUnit (transformSpotifyFeature pint pfloat f).energy ∧
     inUnit (transformSpotifyFeature pint pfloat f).speechiness ∧
     inUnit (transformSpotifyFeature pint pfloat f).acousticness ∧
     inUnit (transformSpotifyFeature pint pfloat f).instrumentalness ∧
     inUnit (transformSpotifyFeature pint pfloat f).liveness ∧
     inUnit (transformSpotifyFeature pint pfloat f).valence) ∧
    ((dimMissingOrNonNumeric pfloat f.danceability →
        (transformSpotifyFeature pint pfloat f).danceability = 0) ∧
     (dimMissingOrNonNumeric pfloat f.energy →
        (transformSpotifyFeature pint pfloat f).energy = 0) ∧
     (dimMissingOrNonNumeric pfloat f.speechiness →
        (transformSpotifyFeature pint pfloat f).speechiness = 0) ∧
     (dimMissingOrNonNumeric pfloat f.acousticness →
        (transformSpotifyFeature pint pfloat f).acousticness = 0) ∧
     (dimMissingOrNonNumeric pfloat f.instrumentalness →
        (transformSpotifyFeature pint pfloat f).instrumentalness = 0) ∧
     (dimMissingOrNonNumeric pfloat f.liveness →
        (transformSpotifyFeature pint pfloat f).liveness = 0) ∧
     (dimMissingOrNonNumeric pfloat f.valence →
        (transformSpotifyFeature pint pfloat f).valence = 0)) := by
  refine ⟨⟨?_, ?_, ?_, ?_, ?_, ?_, ?_⟩, ?_, ?_, ?_, ?_, ?_, ?_, ?_⟩
  · exact safeFloat_getD_unit pfloat f.danceability h1
  · exact safeFloat_getD_unit pfloat f.energy h2
  · exact safeFloat_getD_unit pfloat f.speechiness h3
  · exact safeFloat_getD_unit pfloat f.acousticness h4
  · exact safeFloat_getD_unit pfloat f.instrumentalness h5
  · exact safeFloat_getD_unit pfloat f.liveness h6
  · exact safeFloat_getD_unit pfloat f.valence h7
  · exact fun h => safeFloat_getD_zero pfloat f.danceability h
  · exact fun h => safeFloat_getD_zero pfloat f.energy h
  · exact fun h => safeFloat_getD_zero pfloat f.speechiness h
  · exact fun h => safeFloat_getD_zero pfloat f.acousticness h
  · exact fun h => safeFloat_getD_zero pfloat f.instrumentalness h
  · exact fun h => safeFloat_getD_zero pfloat f.liveness h
  · exact fun h => safeFloat_getD_zero pfloat f.valence h

/-- C4 witness: a record with `danceability = 1/2`, integer `energy = 1`,
an unparsable string `speechiness` and the remaining dims missing
satisfies every hypothesis; all seven outputs land in `[0,1]` and the
unparsable string coerces to 0. -/
theorem features_dims_spec_witness :
    inUnit (transformSpotifyFeature noParseInt noParseFloat
      { danceability := some (.float (1 / 2)), energy := some (.int 1),
        speechiness := some (.str "not a number") }).danceability ∧
    (transformSpotifyFeature noParseInt noParseFloat
      { danceability := some (.float (1 / 2)), energy := some (.int 1),
        speechiness := some (.str "not a number") }).speechiness = 0 := by
  have h := features_dims_spec noParseInt noParseFloat
    { danceability := some (.float (1 / 2)), energy := some (.int 1),
      speechiness := some (.str "not a number") }
    (by constructor <;> norm_num)
    (by constructor <;> norm_num)
    (fun q hq => by simp [noParseFloat] at hq)
    trivial trivial trivial trivial
  exact ⟨h.1.1, h.2.2.2.1 rfl⟩

/-- The 7-tuple of coerced perceptual dimensions of a raw record, in
field order. -/
def sevenDims (pfloat : String → Option ℚ) (f : RawFeature) :
    ℚ × ℚ × ℚ × ℚ × ℚ × ℚ × ℚ :=
  (safeFloat pfloat (f.danceability.getD (.float 0)),
   safeFloat pfloat (f.energy.getD (.float 0)),
   safeFloat pfloat (f.speechiness.getD (.float 0)),
   safeFloat pfloat (f.acousticness.getD (.float 0)),
   safeFloat pfloat (f.instrumentalness.getD (.float 0)),
   safeFloat pfloat (f.liveness.getD (.float 0)),
   safeFloat pfloat (f.valence.getD (.float 0)))

/-- The derived outputs of the Feature Enricher: composite scores and the
three category labels. -/
def derivedFields (o : FeatureOut) : ℚ × ℚ × String × String × String :=
  (o.dance_score, o.mood_score, o.energy_level, o.mood, o.danceability_level)

/-- The derived fields as a function of the dimension tuple alone,
mirroring the formulas of `transform_spotify_features`. -/
def derivedOfDims (t : ℚ × ℚ × ℚ × ℚ × ℚ × ℚ × ℚ) :
    ℚ × ℚ × String × String × String :=
  match t with
  | (danceability, energy, _, acousticness, _, _, valence) =>
    (danceability * (4 / 10) + energy * (3 / 10) + valence * (3 / 10),
     valence * (5 / 10) + energy * (3 / 10) + (1 - acousticness) * (2 / 10),
     (categorizeAudioFeatures energy valence danceability).energy_level,
     (categorizeAudioFeatures energy valence danceability).mood,
     (categorizeAudioFeatures energy valence danceability).danceability_level)

theorem derivedFields_transform (pint : String → Option Int)
    (pfloat : String → Option ℚ) (f : RawFeature) :
    derivedFields (transformSpotifyFeature pint pfloat f)
      = derivedOfDims (sevenDims pfloat f) := rfl

/-- Feeding a transformed record back in as a raw record: each output
field re-enters as the corresponding dynamically-typed value (the floats
as floats, the ints as ints). -/
def reinjectFeature (o : FeatureOut) : RawFeature :=
  { id := some o.track_id
    danceability := some (.float o.danceability)
    energy := some (.float o.energy)
    speechiness := some (.float o.speechiness)
    acousticness := some (.float o.acousticness)
    instrumentalness := some (.float o.instrumentalness)
    liveness := some (.float o.liveness)
    valence := some (.float o.valence)
    loudness := some (.float o.loudness)
    tempo := some (.float o.tempo)
    key := some (.int o.key)
    mode := some (.int o.mode)
    time_signature := some (.int o.time_signature)
    duration_ms := some (.int o.duration_ms) }

/-- C9: the enricher's derived outputs (`dance_score`, `mood_score` and
the energy/mood/danceability labels) are pure functions of the seven
coerced perceptual dimensions — two raw records with equal coerced
dimensions get identical derived values — and re-running the enricher on
its own output reproduces the derived values exactly (derived fields do
not feed back into their own computation). -/
theorem enricher_pure_idempotent (pint : String → Option Int)
    (pfloat : String → Option ℚ) (f g : RawFeature)
    (h : sevenDims pfloat f = sevenDims pfloat g) :
    derivedFields (transformSpotifyFeature pint pfloat f)
      = derivedFields (transformSpotifyFeature pint pfloat g) ∧
    derivedFields (transformSpotifyFeature pint pfloat
        (reinjectFeature (transformSpotifyFeature pint pfloat f)))
      = derivedFields (transformSpotifyFeature pint pfloat f) := by
  constructor
  · rw [derivedFields_transform, derivedFields_transform, h]
  · rw [derivedFields_transform, derivedFields_transform]
    have hseven : sevenDims pfloat
        (reinjectFeature (transformSpotifyFeature pint pfloat f))
        = sevenDims pfloat f := rfl
    rw [hseven]

/-- C9 witness: a record with integer `danceability = 1` and one with
float `danceability = 1.0` coerce to the same dimensions, hence get
identical derived values; re-enrichment also reproduces them. -/
theorem enricher_pure_idempotent_witness :
    derivedFields (transformSpotifyFeature noParseInt noParseFloat
        { danceability := some (.int 1) })
      = derivedFields (transformSpotifyFeature noParseInt noParseFloat
        { danceability := some (.float 1) }) ∧
    derivedFields (transformSpotifyFeature noParseInt noParseFloat
        (reinjectFeature (transformSpotifyFeature noParseInt noParseFloat
          { danceability := some (.int 1) })))
      = derivedFields (transformSpotifyFeature noParseInt noParseFloat
        { danceability := some (.int 1) }) :=
  enricher_pure_idempotent noParseInt noParseFloat
    { danceability := some (.int 1) } { danceability := some (.float 1) }
    (by simp [sevenDims, safeFloat])

/-! ## Normalizer batches (`transform_spotify_tracks`,
`transform_youtube_videos`) with per-record exception semantics -/

/-- Python iteration (`for x in v`): a list yields its elements, a string
its one-character strings, anything else raises `TypeError`. -/
def pyIter : PyVal → Except Unit (List PyVal)
  | .list l => .ok l
  | .str s => .ok (s.data.map (fun c => .str (String.mk [c])))
  | _ => .error ()

/-- Python `len(v)`: defined for lists and strings only; anything else
raises `TypeError`. -/
def pyLen : PyVal → Except Unit Nat
  | .list l => .ok l.length
  | .str s => .ok s.length
  | _ => .error ()

/-- `v.lower()`: only strings have the method; anything else raises
`AttributeError`. -/
def pyStrLower : PyVal → Except Unit String
  | .str s => .ok (strLower s)
  | _ => .error ()

/-- `_clean_text` mapped over a list (the artists comprehension). -/
def cleanTextList : List PyVal → Except Unit (List String)
  | [] => .ok []
  | v :: vs =>
    match cleanText v with
    | .error e => .error e
    | .ok s =>
      match cleanTextList vs with
      | .error e => .error e
      | .ok ss => .ok (s :: ss)

/-- `.lower()` mapped over a list (the tags comprehension of
`_is_music_video`). -/
def pyStrLowerList : List PyVal → Except Unit (List String)
  | [] => .ok []
  | v :: vs =>
    match pyStrLower v with
    | .error e => .error e
    | .ok s =>
      match pyStrLowerList vs with
      | .error e => .error e
      | .ok ss => .ok (s :: ss)

/-- `_categorize_popularity` (transform.py:524-535). -/
def categorizePopularity (popularity : Int) : String :=
  if 80 ≤ popularity then "very_high"
  else if 60 ≤ popularity then "high"
  else if 40 ≤ popularity then "medium"
  else if 20 ≤ popularity then "low"
  else "very_low"

/-- `_categorize_duration` (transform.py:537-548). -/
def categorizeDuration (duration_seconds : Int) : String :=
  if duration_seconds < 60 then "very_short"
  else if duration_seconds < 180 then "short"
  else if duration_seconds < 300 then "medium"
  else if duration_seconds < 600 then "long"
  else "very_long"

/-- `_categorize_views` (transform.py:550-561). -/
def categorizeViews (view_count : Int) : String :=
  if 10000000 ≤ view_count then "viral"
  else if 1000000 ≤ view_count then "very_popular"
  else if 100000 ≤ view_count then "popular"
  else if 10000 ≤ view_count then "moderate"
  else "low"

/-- The keyword list of `_is_music_video`. -/
def musicKeywords : List String :=
  ["music", "song", "official", "video", "audio", "lyrics", "album"]

/-- `_is_music_video` (transform.py:628-645), as a function of the
transformed title, the raw `tags` value and the raw search metadata.  It
can raise while iterating a non-iterable `tags` value or lower-casing a
non-string tag. -/
def isMusicVideo (title : String) (tags search_artist search_track : PyVal) :
    Except Unit Bool :=
  let t := strLower title
  match pyIter tags with
  | .error e => .error e
  | .ok tagVals =>
    match pyStrLowerList tagVals with
    | .error e => .error e
    | .ok tagsLower =>
      let title_score := (musicKeywords.filter (fun k => pyInStr k t)).length
      let tag_score := (tagsLower.map (fun tag =>
        (musicKeywords.filter (fun k => pyInStr k tag)).length)).sum
      let has_search_data := search_artist.truthy && search_track.truthy
      .ok (decide (2 ≤ title_score) || decide (3 ≤ tag_score) || has_search_data)

/-- The keyword list of `_is_official_content`. -/
def officialKeywords : List String := ["official", "vevo", "records", "music"]

/-- `_is_official_content` (transform.py:647-654): total, since title and
channel name are already cleaned strings. -/
def isOfficialContent (title channel_title : String) : Bool :=
  officialKeywords.any (fun k =>
    pyInStr k (strLower title) || pyInStr k (strLower channel_title))

/-- A raw Spotify track record: every field optional and dynamically
typed.  Fields of the source dict that no claim observes and whose
computation cannot raise (URLs, external ids, release date, markets
passthrough, extraction metadata, `transformed_at`) are not tracked. -/
structure RawTrack where
  track_id : Option PyVal := Option.none
  album_id : Option PyVal := Option.none
  name : Option PyVal := Option.none
  artist_name : Option PyVal := Option.none
  album_name : Option PyVal := Option.none
  artists : Option PyVal := Option.none
  popularity : Option PyVal := Option.none
  duration_ms : Option PyVal := Option.none
  explicit : Option PyVal := Option.none
  is_local : Option PyVal := Option.none
  total_tracks : Option PyVal := Option.none
  disc_number : Option PyVal := Option.none
  track_number : Option PyVal := Option.none
  available_markets : Option PyVal := Option.none

/-- One transformed Spotify track (the fields tracked by claims). -/
structure TrackOut where
  track_id : PyVal
  album_id : PyVal
  name : String
  artist_name : String
  album_name : String
  artists : List String
  popularity : Int
  duration_ms : Int
  duration_seconds : Int
  explicit : Bool
  is_local : Bool
  total_tracks : Int
  disc_number : Int
  track_number : Int
  market_count : Nat
  artist_count : Nat
  is_collaboration : Bool
  name_length : Nat
  artist_name_length : Nat
  popularity_category : String
  duration_category : String
deriving Inhabited

/-- One iteration of the `transform_spotify_tracks` loop
(transform.py:45-106).  Every operation of the loop body that can raise
on a wrongly-typed field (text cleaning, the artists comprehension, the
`len` calls) is modelled in `Except`; field coercions (`_safe_int`,
`_parse_date`, `bool`) are total and cannot fail. -/
def transformTrack (pint : String → Option Int) (t : RawTrack) :
    Except Unit TrackOut :=
  match cleanText (t.name.getD (.str "")) with
  | .error e => .error e
  | .ok name =>
    match cleanText (t.artist_name.getD (.str "")) with
    | .error e => .error e
    | .ok artist_name =>
      match cleanText (t.album_name.getD (.str "")) with
      | .error e => .error e
      | .ok album_name =>
        match pyIter (t.artists.getD (.list [])) with
        | .error e => .error e
        | .ok artistVals =>
          match cleanTextList artistVals with
          | .error e => .error e
          | .ok artists =>
            match pyLen (t.available_markets.getD (.list [])) with
            | .error e => .error e
            | .ok market_count =>
              match pyLen (t.artists.getD (.list [])) with
              | .error e => .error e
              | .ok artist_count =>
                match pyLen (t.name.getD (.str "")) with
                | .error e => .error e
                | .ok name_length =>
                  match pyLen (t.artist_name.getD (.str "")) with
                  | .error e => .error e
                  | .ok artist_name_length =>
                    let popularity := safeInt pint (t.popularity.getD (.int 0))
                    let duration_ms := safeInt pint (t.duration_ms.getD (.int 0))
                    let duration_seconds := Int.fdiv (safeInt pint (t.duration_ms.getD (.int 0))) 1000
                    .ok
                      { track_id := t.track_id.getD (.str "")
                        album_id := t.album_id.getD (.str "")
                        name := name
                        artist_name := artist_name
                        album_name := album_name
                        artists := artists
                        popularity := popularity
                        duration_ms := duration_ms
                        duration_seconds := duration_seconds
                        explicit := (t.explicit.getD (.bool false)).truthy
                        is_local := (t.is_local.getD (.bool false)).truthy
                        total_tracks := safeInt pint (t.total_tracks.getD (.int 0))
                        disc_number := safeInt pint (t.disc_number.getD (.int 1))
                        track_number := safeInt pint (t.track_number.getD (.int 1))
                        market_count := market_count
                        artist_count := artist_count
                        is_collaboration := decide (1 < artist_count)
                        name_length := name_length
                        artist_name_length := artist_name_length
                        popularity_category := categorizePopularity popularity
                        duration_category := categorizeDuration duration_seconds }

/-- `transform_spotify_tracks` (transform.py:31-113): the loop catches
any per-record exception, logs, and continues — a failing record is
dropped, the rest of the batch is still processed. -/
def transformSpotifyTracks (pint : String → Option Int) :
    List RawTrack → List TrackOut
  | [] => []
  | t :: ts =>
    match transformTrack pint t with
    | .ok r => r :: transformSpotifyTracks pint ts
    | .error _ => transformSpotifyTracks pint ts

/-- A raw YouTube video record.  Fields no claim observes and whose
computation cannot raise (published dates, the compact duration code,
status flags, thumbnails, extraction metadata, `transformed_at`) are not
tracked. -/
structure RawVideo where
  video_id : Option PyVal := Option.none
  channel_id : Option PyVal := Option.none
  title : Option PyVal := Option.none
  description : Option PyVal := Option.none
  channel_title : Option PyVal := Option.none
  view_count : Option PyVal := Option.none
  like_count : Option PyVal := Option.none
  dislike_count : Option PyVal := Option.none
  comment_count : Option PyVal := Option.none
  favorite_count : Option PyVal := Option.none
  tags : Option PyVal := Option.none
  category_id : Option PyVal := Option.none
  source_region : Option PyVal := Option.none
  search_artist : Option PyVal := Option.none
  search_track : Option PyVal := Option.none

/-- One transformed YouTube video (the fields tracked by claims). -/
structure VideoOut where
  video_id : PyVal
  channel_id : PyVal
  title : String
  description : String
  channel_title : String
  view_count : Int
  like_count : Int
  dislike_count : Int
  comment_count : Int
  favorite_count : Int
  tags : PyVal
  category_id : PyVal
  source_region : PyVal
  search_artist : PyVal
  search_track : PyVal
  like_rate : ℚ
  comment_rate : ℚ
  engagement_rate : ℚ
  engagement_score : ℚ
  view_category : String
  is_music_video : Bool
  is_official : Bool
  tag_count : Nat
  title_length : Nat
  description_length : Nat
deriving Inhabited

/-- One iteration of the `transform_youtube_videos` loop
(transform.py:200-274): text cleaning, the `_is_music_video` tag handling
and the `len(tags)` call can raise; the count coercions, engagement
metrics and category labels are total. -/
def transformVideo (pint : String → Option Int) (v : RawVideo) :
    Except Unit VideoOut :=
  match cleanText (v.title.getD (.str "")) with
  | .error e => .error e
  | .ok title =>
    match cleanText (v.description.getD (.str "")) with
    | .error e => .error e
    | .ok description0 =>
      match cleanText (v.channel_title.getD (.str "")) with
      | .error e => .error e
      | .ok channel_title =>
        let description := description0.take 1000
        let view_count := safeInt pint (v.view_count.getD (.int 0))
        let like_count := safeInt pint (v.like_count.getD (.int 0))
        let comment_count := safeInt pint (v.comment_count.getD (.int 0))
        let metrics := calculateEngagementMetrics view_count like_count comment_count
        match isMusicVideo title (v.tags.getD (.list []))
            (v.search_artist.getD (.str "")) (v.search_track.getD (.str "")) with
        | .error e => .error e
        | .ok music_video =>
          match pyLen (v.tags.getD (.list [])) with
          | .error e => .error e
          | .ok tag_count =>
            .ok
              { video_id := v.video_id.getD (.str "")
                channel_id := v.channel_id.getD (.str "")
                title := title
                description := description
                channel_title := channel_title
                view_count := view_count
                like_count := like_count
                dislike_count := safeInt pint (v.dislike_count.getD (.int 0))
                comment_count := comment_count
                favorite_count := safeInt pint (v.favorite_count.getD (.int 0))
                tags := v.tags.getD (.list [])
                category_id := v.category_id.getD (.str "")
                source_region := v.source_region.getD (.str "")
                search_artist := v.search_artist.getD (.str "")
                search_track := v.search_track.getD (.str "")
                like_rate := metrics.like_rate
                comment_rate := metrics.comment_rate
                engagement_rate := metrics.engagement_rate
                engagement_score := metrics.engagement_score
                view_category := categorizeViews view_count
                is_music_video := music_video
                is_official := isOfficialContent title channel_title
                tag_count := tag_count
                title_length := title.length
                description_length := description.length }

/-- `transform_youtube_videos` (transform.py:186-281): same best-effort
batch loop as for tracks. -/
def transformYoutubeVideos (pint : String → Option Int) :
    List RawVideo → List VideoOut
  | [] => []
  | v :: vs =>
    match transformVideo pint v with
    | .ok r => r :: transformYoutubeVideos pint vs
    | .error _ => transformYoutubeVideos pint vs

/-- The raw value of a count field coerces to a non-negative integer:
missing, `None`, boolean and non-numeric values always do, a numeric
value does when it is non-negative. -/
def countNonneg (pint : String → Option Int) : Option PyVal → Prop
  | Option.none => True
  | some .none => True
  | some (.bool _) => True
  | some (.int i) => 0 ≤ i
  | some (.float q) => 0 ≤ q
  | some (.str s) => ∀ i, pint s = some i → 0 ≤ i
  | some (.list _) => True

/-- The raw value is missing or invalid, so `_safe_int` coerces it to 0. -/
def countMissingOrInvalid (pint : String → Option Int) : Option PyVal → Prop
  | Option.none => True
  | some .none => True
  | some (.str s) => pint s = Option.none
  | some (.list _) => True
  | _ => False

theorem safeInt_getD_nonneg (pint : String → Option Int) (o : Option PyVal)
    (h : countNonneg pint o) : 0 ≤ safeInt pint (o.getD (.int 0)) := by
  match o with
  | Option.none => exact le_refl 0
  | some .none => exact le_refl 0
  | some (.bool b) => cases b <;> simp [safeInt]
  | some (.int i) => exact h
  | some (.float q) =>
    have hq : (0 : ℚ) ≤ q := h
    show 0 ≤ ratTruncToInt q
    rw [ratTruncToInt, if_pos hq]
    exact Int.floor_nonneg.mpr hq
  | some (.str s) =>
    match hq : pint s with
    | Option.none => simp [safeInt, hq]
    | some i => simpa [safeInt, hq] using h i hq
  | some (.list l) => exact le_refl 0

theorem safeInt_getD_zero (pint : String → Option Int) (o : Option PyVal)
    (h : countMissingOrInvalid pint o) : safeInt pint (o.getD (.int 0)) = 0 := by
  match o with
  | Option.none => rfl
  | some .none => rfl
  | some (.bool b) => exact absurd h (by simp [countMissingOrInvalid])
  | some (.int i) => exact absurd h (by simp [countMissingOrInvalid])
  | some (.float q) => exact absurd h (by simp [countMissingOrInvalid])
  | some (.str s) => simp [safeInt, show pint s = Option.none from h]
  | some (.list l) => rfl

theorem transformVideo_counts (pint : String → Option Int) (v : RawVideo)
    (out : VideoOut) (hok : transformVideo pint v = Except.ok out) :
    out.view_count = safeInt pint (v.view_count.getD (.int 0)) ∧
    out.like_count = safeInt pint (v.like_count.getD (.int 0)) ∧
    out.dislike_count = safeInt pint (v.dislike_count.getD (.int 0)) ∧
    out.comment_count = safeInt pint (v.comment_count.getD (.int 0)) ∧
    out.favorite_count = safeInt pint (v.favorite_count.getD (.int 0)) := by
  unfold transformVideo at hok
  cases h1 : cleanText (v.title.getD (.str "")) with
  | error e => rw [h1] at hok; simp at hok
  | ok title =>
    rw [h1] at hok
    cases h2 : cleanText (v.description.getD (.str "")) with
    | error e => rw [h2] at hok; simp at hok
    | ok description0 =>
      rw [h2] at hok
      cases h3 : cleanText (v.channel_title.getD (.str "")) with
      | error e => rw [h3] at hok; simp at hok
      | ok channel_title =>
        rw [h3] at hok
        simp only at hok
        cases h4 : isMusicVideo title (v.tags.getD (.list []))
            (v.search_artist.getD (.str "")) (v.search_track.getD (.str "")) with
        | error e => rw [h4] at hok; simp at hok
        | ok music_video =>
          rw [h4] at hok
          cases h5 : pyLen (v.tags.getD (.list [])) with
          | error e => rw [h5] at hok; simp at hok
          | ok tag_count =>
            rw [h5] at hok
            simp only [Except.ok.injEq] at hok
            subst hok
            exact ⟨rfl, rfl, rfl, rfl, rfl⟩

/-- C5 counterexample: a raw video with `view_count = -5` transforms
successfully and keeps `view_count = -5` — `_safe_int` coerces types but
never forces non-negativity. -/
theorem video_counts_counterexample :
    (transformVideo noParseInt { view_count := some (.int (-5)) }).map
        (fun out => out.view_count) = Except.ok (-5) ∧ ((-5 : Int) < 0) :=
  ⟨rfl, by decide⟩

/-- C5 (amended): each transformed count equals the `_safe_int` coercion
of its raw value, so it is a non-negative integer whenever the raw value
is missing, `None`, invalid, boolean, or a non-negative number — the code
does not clamp, so negative numeric inputs pass through unchanged;
missing or invalid input always coerces to 0. -/
theorem video_counts_spec (pint : String → Option Int) (v : RawVideo)
    (out : VideoOut) (hok : transformVideo pint v = Except.ok out)
    (h1 : countNonneg pint v.view_count)
    (h2 : countNonneg pint v.like_count)
    (h3 : countNonneg pint v.dislike_count)
    (h4 : countNonneg pint v.comment_count)
    (h5 : countNonneg pint v.favorite_count) :
    (0 ≤ out.view_count ∧ 0 ≤ out.like_count ∧ 0 ≤ out.dislike_count ∧
      0 ≤ out.comment_count ∧ 0 ≤ out.favorite_count) ∧
    (countMissingOrInvalid pint v.view_count → out.view_count = 0) ∧
    (countMissingOrInvalid pint v.like_count → out.like_count = 0) ∧
    (countMissingOrInvalid pint v.dislike_count → out.dislike_count = 0) ∧
    (countMissingOrInvalid pint v.comment_count → out.comment_count = 0) ∧
    (countMissingOrInvalid pint v.favorite_count → out.favorite_count = 0) := by
  obtain ⟨e1, e2, e3, e4, e5⟩ := transformVideo_counts pint v out hok
  refine ⟨⟨?_, ?_, ?_, ?_, ?_⟩, ?_, ?_, ?_, ?_, ?_⟩
  · rw [e1]; exact safeInt_getD_nonneg pint v.view_count h1
  · rw [e2]; exact safeInt_getD_nonneg pint v.like_count h2
  · rw [e3]; exact safeInt_getD_nonneg pint v.dislike_count h3
  · rw [e4]; exact safeInt_getD_nonneg pint v.comment_count h4
  · rw [e5]; exact safeInt_getD_nonneg pint v.favorite_count h5
  · intro h; rw [e1]; exact safeInt_getD_zero pint v.view_count h
  · intro h; rw [e2]; exact safeInt_getD_zero pint v.like_count h
  · intro h; rw [e3]; exact safeInt_getD_zero pint v.dislike_count h
  · intro h; rw [e4]; exact safeInt_getD_zero pint v.comment_count h
  · intro h; rw [e5]; exact safeInt_getD_zero pint v.favorite_count h

/-- A sample raw video whose `view_count` is an unparsable string. -/
def sampleVideoStr : RawVideo := { view_count := some (.str "nope") }

/-- The transformed output of `sampleVideoStr` (the transformation
succeeds). -/
def sampleVideoStrOut : VideoOut :=
  match transformVideo noParseInt sampleVideoStr with
  | .ok r => r
  | .error _ => default

/-- C5 witness: the unparsable `view_count` coerces to 0, which is
non-negative. -/
theorem video_counts_spec_witness :
    sampleVideoStrOut.view_count = 0 ∧ 0 ≤ sampleVideoStrOut.view_count := by
  have h := video_counts_spec noParseInt sampleVideoStr sampleVideoStrOut rfl
    (by intro i hi; simp [noParseInt] at hi) trivial trivial trivial trivial
  exact ⟨h.2.1 rfl, h.1.1⟩

/-- C8: batch semantics of the two normalizer loops — both are total Lean
functions (no unhandled exception is possible), the empty batch maps to
the empty batch, each loop keeps exactly the records whose per-record
transformation succeeds, and a record whose transformation raises is
dropped while every remaining record is still processed. -/
theorem batch_transform_robust (pint : String → Option Int) :
    transformSpotifyTracks pint [] = [] ∧
    transformYoutubeVideos pint [] = [] ∧
    (∀ ts : List RawTrack, transformSpotifyTracks pint ts
        = ts.filterMap (fun t => (transformTrack pint t).toOption)) ∧
    (∀ vs : List RawVideo, transformYoutubeVideos pint vs
        = vs.filterMap (fun v => (transformVideo pint v).toOption)) ∧
    (∀ (ts : List RawTrack) (t : RawTrack) (ts' : List RawTrack),
      transformTrack pint t = Except.error () →
      transformSpotifyTracks pint (ts ++ t :: ts')
        = transformSpotifyTracks pint (ts ++ ts')) ∧
    (∀ (vs : List RawVideo) (v : RawVideo) (vs' : List RawVideo),
      transformVideo pint v = Except.error () →
      transformYoutubeVideos pint (vs ++ v :: vs')
        = transformYoutubeVideos pint (vs ++ vs')) := by
  have htr : ∀ ts : List RawTrack, transformSpotifyTracks pint ts
      = ts.filterMap (fun t => (transformTrack pint t).toOption) := by
    intro ts
    induction ts with
    | nil => rfl
    | cons t ts ih =>
      rw [List.filterMap_cons]
      cases h : transformTrack pint t with
      | error e =>
        rw [transformSpotifyTracks, h]
        simp [Except.toOption, h, ih]
      | ok r =>
        rw [transformSpotifyTracks, h]
        simp [Except.toOption, h, ih]
  have hvi : ∀ vs : List RawVideo, transformYoutubeVideos pint vs
      = vs.filterMap (fun v => (transformVideo pint v).toOption) := by
    intro vs
    induction vs with
    | nil => rfl
    | cons v vs ih =>
      rw [List.filterMap_cons]
      cases h : transformVideo pint v with
      | error e =>
        rw [transformYoutubeVideos, h]
        simp [Except.toOption, h, ih]
      | ok r =>
        rw [transformYoutubeVideos, h]
        simp [Except.toOption, h, ih]
  refine ⟨rfl, rfl, htr, hvi, ?_, ?_⟩
  · intro ts t ts' herr
    rw [htr, htr, List.filterMap_append, List.filterMap_append,
      List.filterMap_cons, herr]
    rfl
  · intro vs v vs' herr
    rw [hvi, hvi, List.filterMap_append, List.filterMap_append,
      List.filterMap_cons, herr]
    rfl

/-- A raw track whose `name` field is a (truthy) integer: `_clean_text`
raises `TypeError` on it, so the record is dropped. -/
def sampleTrackBad : RawTrack := { name := some (.int 5) }

/-- A raw track with every field missing: every coercion falls back to
its default and the transformation succeeds. -/
def emptyRawTrack : RawTrack := {}

/-- A raw video whose `tags` field is a (non-iterable) integer:
`_is_music_video` raises `TypeError` on it, so the record is dropped. -/
def sampleVideoBad : RawVideo := { tags := some (.int 7) }

/-- C8 witness: empty batches map to empty batches, and concrete bad
records are dropped while the surrounding records are still processed. -/
theorem batch_transform_robust_witness :
    transformSpotifyTracks noParseInt [] = [] ∧
    transformYoutubeVideos noParseInt [] = [] ∧
    transformSpotifyTracks noParseInt ([emptyRawTrack] ++ sampleTrackBad :: [emptyRawTrack])
      = transformSpotifyTracks noParseInt ([emptyRawTrack] ++ [emptyRawTrack]) ∧
    transformYoutubeVideos noParseInt ([] ++ sampleVideoBad :: [])
      = transformYoutubeVideos noParseInt ([] ++ []) := by
  have h := batch_transform_robust noParseInt
  exact ⟨h.1, h.2.1,
    h.2.2.2.2.1 [emptyRawTrack] sampleTrackBad [emptyRawTrack] rfl,
    h.2.2.2.2.2 [] sampleVideoBad [] rfl⟩

/-! ## Regional Aggregator (`aggregate_regional_data`) -/

/-- The fields of a transformed video that the regional aggregation
reads. -/
structure AggVideo where
  source_region : String
  view_count : Int
  like_count : Int
  comment_count : Int
  is_music_video : Bool
  is_official : Bool
  channel_title : String
  category_id : String
deriving DecidableEq

/-- The running totals of one region bucket (the working dict entry of
`aggregate_regional_data`). -/
structure RegionStats where
  region_code : String
  total_videos : Nat
  total_views : Int
  total_likes : Int
  total_comments : Int
  music_videos_count : Nat
  official_videos_count : Nat
  top_channels : List (String × Nat)
  top_categories : List (String × Nat)
deriving DecidableEq

/-- The fresh bucket created on a region's first video
(transform.py:371-383). -/
def initRegion (region : String) : RegionStats :=
  { region_code := region
    total_videos := 0
    total_views := 0
    total_likes := 0
    total_comments := 0
    music_videos_count := 0
    official_videos_count := 0
    top_channels := []
    top_categories := [] }

/-- Counter-dict increment with Python-dict insertion-order semantics:
an existing key is bumped in place, a new key is appended at the end. -/
def bumpCount (k : String) : List (String × Nat) → List (String × Nat)
  | [] => [(k, 1)]
  | (k', n) :: rest =>
    if k' = k then (k', n + 1) :: rest else (k', n) :: bumpCount k rest

/-- One video's contribution to its region bucket
(transform.py:385-405). -/
def updateRegion (v : AggVideo) (s : RegionStats) : RegionStats :=
  { s with
    total_videos := s.total_videos + 1
    total_views := s.total_views + v.view_count
    total_likes := s.total_likes + v.like_count
    total_comments := s.total_comments + v.comment_count
    music_videos_count := s.music_videos_count + (if v.is_music_video then 1 else 0)
    official_videos_count := s.official_videos_count + (if v.is_official then 1 else 0)
    top_channels := bumpCount v.channel_title s.top_channels
    top_categories := bumpCount v.category_id s.top_categories }

/-- Update the bucket of `region` in place (creating it at the end when
absent), with Python-dict insertion-order semantics. -/
def upsertRegion (region : String) (v : AggVideo) :
    List (String × RegionStats) → List (String × RegionStats)
  | [] => [(region, updateRegion v (initRegion region))]
  | (k, s) :: rest =>
    if k = region then (k, updateRegion v s) :: rest
    else (k, s) :: upsertRegion region v rest

/-- One step of the accumulation fold of `aggregate_regional_data`
(transform.py:367-405): the video updates exactly the bucket of its own
`source_region`. -/
def stepRegional (acc : List (String × RegionStats)) (v : AggVideo) :
    List (String × RegionStats) :=
  upsertRegion v.source_region v acc

/-- One finalized regional aggregate (transform.py:410-439): totals plus
averages and top-5 rankings. -/
structure RegionAgg where
  region_code : String
  total_videos : Nat
  total_views : Int
  total_likes : Int
  total_comments : Int
  music_videos_count : Nat
  official_videos_count : Nat
  avg_views_per_video : ℚ
  avg_likes_per_video : ℚ
  avg_comments_per_video : ℚ
  avg_engagement_rate : ℚ
  top_5_channels : List (String × Nat)
  top_5_categories : List (String × Nat)

/-- Finalization of one bucket (transform.py:411-439): per-video
averages, the guarded average engagement rate, and the top-5 channel and
category rankings (stable descending sort by count, `[:5]`). -/
def finalizeRegion (s : RegionStats) : RegionAgg :=
  { region_code := s.region_code
    total_videos := s.total_videos
    total_views := s.total_views
    total_likes := s.total_likes
    total_comments := s.total_comments
    music_videos_count := s.music_videos_count
    official_videos_count := s.official_videos_count
    avg_views_per_video := (s.total_views : ℚ) / (s.total_videos : ℚ)
    avg_likes_per_video := (s.total_likes : ℚ) / (s.total_videos : ℚ)
    avg_comments_per_video := (s.total_comments : ℚ) / (s.total_videos : ℚ)
    avg_engagement_rate :=
      if 0 < s.total_views then
        ((s.total_likes : ℚ) + (s.total_comments : ℚ)) / (s.total_views : ℚ)
      else 0
    top_5_channels :=
      (sortDesc (fun p => ((p.2 : ℚ))) s.top_channels).take 5
    top_5_categories :=
      (sortDesc (fun p => ((p.2 : ℚ))) s.top_categories).take 5 }

/-- `aggregate_regional_data` (transform.py:352-442): a left-to-right
fold over the video list building the per-region buckets (in first-seen
order), then a finalization pass keeping buckets with at least one video
(every bucket, since a bucket is only created on its first video).

The transformed videos always carry a `source_region` key, so the
`.get('source_region', 'unknown')` default path is not modelled; the
region field is read directly. -/
def aggregateRegionalData (videos : List AggVideo) : List RegionAgg :=
  ((videos.foldl stepRegional []).filter
    (fun p => 0 < p.2.total_videos)).map (fun p => finalizeRegion p.2)

/-- Sum of the running `total_views` over an accumulator. -/
def sumViews (acc : List (String × RegionStats)) : Int :=
  (acc.map (fun p => p.2.total_views)).sum

theorem sumViews_upsert (region : String) (v : AggVideo)
    (acc : List (String × RegionStats)) :
    sumViews (upsertRegion region v acc) = sumViews acc + v.view_count := by
  induction acc with
  | nil => simp [upsertRegion, sumViews, updateRegion, initRegion]
  | cons p rest ih =>
    obtain ⟨k, s⟩ := p
    by_cases hk : k = region
    · simp [upsertRegion, hk, sumViews, updateRegion]
      ring
    · simp only [upsertRegion, if_neg hk, sumViews, List.map_cons, List.sum_cons]
      have := ih
      simp only [sumViews] at this
      rw [this]
      ring

theorem upsert_pos (region : String) (v : AggVideo)
    (acc : List (String × RegionStats))
    (h : ∀ p ∈ acc, 0 < p.2.total_videos) :
    ∀ p ∈ upsertRegion region v acc, 0 < p.2.total_videos := by
  induction acc with
  | nil =>
    intro p hp
    simp only [upsertRegion, List.mem_singleton] at hp
    subst hp
    simp [updateRegion, initRegion]
  | cons q rest ih =>
    obtain ⟨k, s⟩ := q
    intro p hp
    by_cases hk : k = region
    · rw [upsertRegion, if_pos hk] at hp
      rcases List.mem_cons.mp hp with hpe | hpr
      · subst hpe
        simp [updateRegion]
      · exact h p (List.mem_cons_of_mem _ hpr)
    · rw [upsertRegion, if_neg hk] at hp
      rcases List.mem_cons.mp hp with hpe | hpr
      · subst hpe
        exact h (k, s) (List.mem_cons_self (k, s) rest)
      · exact ih (fun r hr => h r (List.mem_cons_of_mem _ hr)) p hpr

theorem sumViews_foldl (videos : List AggVideo)
    (acc : List (String × RegionStats)) :
    sumViews (videos.foldl stepRegional acc)
      = sumViews acc + (videos.map (fun v => v.view_count)).sum := by
  induction videos generalizing acc with
  | nil => simp
  | cons v vs ih =>
    rw [List.foldl_cons, ih, List.map_cons, List.sum_cons]
    rw [stepRegional, sumViews_upsert]
    ring

theorem foldl_pos (videos : List AggVideo)
    (acc : List (String × RegionStats))
    (h : ∀ p ∈ acc, 0 < p.2.total_videos) :
    ∀ p ∈ videos.foldl stepRegional acc, 0 < p.2.total_videos := by
  induction videos generalizing acc with
  | nil => exact h
  | cons v vs ih =>
    rw [List.foldl_cons]
    exact ih (stepRegional acc v) (upsert_pos v.source_region v acc h)

theorem lookup_upsert_ne (region k : String) (v : AggVideo)
    (acc : List (String × RegionStats)) (hk : k ≠ region) :
    List.lookup k (upsertRegion region v acc) = List.lookup k acc := by
  induction acc with
  | nil => simp [upsertRegion, List.lookup, beq_eq_false_iff_ne.mpr hk]
  | cons p rest ih =>
    obtain ⟨k', s⟩ := p
    by_cases hk' : k' = region
    · rw [upsertRegion, if_pos hk']
      by_cases hkk : k = k'
      · exact absurd (hkk.trans hk') hk
      · simp [List.lookup, beq_eq_false_iff_ne.mpr hkk]
    · rw [upsertRegion, if_neg hk']
      by_cases hkk : k = k'
      · subst hkk
        simp [List.lookup]
      · simp only [List.lookup, beq_eq_false_iff_ne.mpr hkk]
        exact ih

theorem lookup_upsert_self (region : String) (v : AggVideo)
    (acc : List (String × RegionStats)) :
    List.lookup region (upsertRegion region v acc)
      = some (updateRegion v ((List.lookup region acc).getD (initRegion region))) := by
  induction acc with
  | nil => simp [upsertRegion, List.lookup]
  | cons p rest ih =>
    obtain ⟨k, s⟩ := p
    by_cases hk : k = region
    · subst hk
      rw [upsertRegion, if_pos rfl]
      simp [List.lookup]
    · rw [upsertRegion, if_neg hk]
      simp only [List.lookup, beq_eq_false_iff_ne.mpr (fun h => hk h.symm)]
      exact ih

/-- C6: the regional aggregation conserves views — the sum of
`total_views` over all returned regional aggregates equals the sum of
`view_count` over the input videos — and each accumulation step touches
exactly one bucket: the video's own region is updated (created from the
empty bucket if absent) and every other region's running totals are left
unchanged. -/
theorem regional_totals_spec (videos : List AggVideo) :
    ((aggregateRegionalData videos).map (fun r => r.total_views)).sum
      = (videos.map (fun v => v.view_count)).sum ∧
    (∀ (acc : List (String × RegionStats)) (v : AggVideo) (k : String),
      k ≠ v.source_region →
      List.lookup k (stepRegional acc v) = List.lookup k acc) ∧
    (∀ (acc : List (String × RegionStats)) (v : AggVideo),
      List.lookup v.source_region (stepRegional acc v)
        = some (updateRegion v ((List.lookup v.source_region acc).getD
            (initRegion v.source_region)))) := by
  refine ⟨?_, ?_, ?_⟩
  · have hpos : ∀ p ∈ List.foldl stepRegional [] videos, 0 < p.2.total_videos :=
      foldl_pos videos [] (by intro p hp; simp at hp)
    have hfilter : (List.foldl stepRegional [] videos).filter
        (fun p => 0 < p.2.total_videos) = List.foldl stepRegional [] videos := by
      rw [List.filter_eq_self]
      intro p hp
      simpa using hpos p hp
    rw [aggregateRegionalData, hfilter]
    have hmap : ((List.foldl stepRegional [] videos).map
          (fun p => finalizeRegion p.2)).map (fun r => r.total_views)
        = (List.foldl stepRegional [] videos).map (fun p => p.2.total_views) := by
      rw [List.map_map]
      rfl
    rw [hmap]
    have := sumViews_foldl videos []
    simp only [sumViews] at this
    simpa using this
  · intro acc v k hk
    exact lookup_upsert_ne v.source_region k v acc hk
  · intro acc v
    exact lookup_upsert_self v.source_region v acc

/-- A sample video in region `"BR"`. -/
def sampleAggVideo : AggVideo :=
  { source_region := "BR", view_count := 10, like_count := 2, comment_count := 1,
    is_music_video := true, is_official := false,
    channel_title := "chan", category_id := "10" }

/-- C6 witness: a one-video batch conserves its views, stepping it leaves
the absent region `"US"` untouched, and updates exactly the bucket of its
own region `"BR"`. -/
theorem regional_totals_spec_witness :
    ((aggregateRegionalData [sampleAggVideo]).map (fun r => r.total_views)).sum
      = ([sampleAggVideo].map (fun v => v.view_count)).sum ∧
    List.lookup "US" (stepRegional [] sampleAggVideo) = List.lookup "US" [] ∧
    List.lookup "BR" (stepRegional [] sampleAggVideo)
      = some (updateRegion sampleAggVideo ((List.lookup "BR"
          ([] : List (String × RegionStats))).getD (initRegion "BR"))) := by
  have h := regional_totals_spec [sampleAggVideo]
  refine ⟨h.1, ?_, ?_⟩
  · exact h.2.1 [] sampleAggVideo "US" (by decide)
  · have := h.2.2 [] sampleAggVideo
    simpa [sampleAggVideo] using this
